import Mathlib

/-!
Verification of the secure3270proxy session gateway.

The definitions below are a shallow embedding of the Go sources:
`main.go` (configuration, listener supervisors), `proxy.go`
(host-selection menu and the relay engine `connectToHost`), and the
authentication module (`LoadAuthConfig`, `authenticateUser`,
`HandleAuth`).  Pure control flow is translated into total Lean
functions; effectful steps (logging, network I/O, goroutine scheduling)
are represented by an environment of outcomes and an explicit event
trace emitted in program order.
-/

namespace Secure3270

/-! ## Credential store (authentication module)

`User` mirrors the Go struct `User{Username, Password, HostFile}`.
The global slice `authUsers` is modelled as an explicit list argument. -/

/-- Embedding of `strings.TrimSpace`: drop whitespace from both ends.
(Go trims all Unicode space; the sources only ever meet ASCII space,
tab, CR and LF, which `Char.isWhitespace` covers.) -/
def goTrim (s : String) : String :=
  String.mk
    (((s.data.dropWhile Char.isWhitespace).reverse.dropWhile Char.isWhitespace).reverse)

/-- Whether the string starts with the single character `c`
(`strings.HasPrefix` at a one-character pattern). -/
def startsWithChar (s : String) (c : Char) : Bool :=
  match s.data with
  | [] => false
  | d :: _ => d = c

/-- Embedding of `strings.ToUpper` on the ASCII range the menu meets. -/
def goToUpper (s : String) : String :=
  String.mk (s.data.map Char.toUpper)

structure User where
  Username : String
  Password : String
  HostFile : String
  deriving Repr, DecidableEq

/-- Embedding of `authenticateUser(username, password)`: iterate over the
loaded users in order; on the first record whose `Username` and `Password`
both equal the submitted values, return `(true, user.HostFile)`; if the
loop finishes, return `(false, "")`. -/
def authenticateUser (users : List User) (username password : String) :
    Bool × String :=
  match users with
  | [] => (false, "")
  | user :: rest =>
    if username = user.Username ∧ password = user.Password then
      (true, user.HostFile)
    else
      authenticateUser rest username password

/-! ### Credential file parsing (`LoadAuthConfig`)

Go: each line is trimmed; blank lines and lines starting with `#` are
skipped; the line is split on `/` into at most 3 parts
(`strings.SplitN(line, "/", 3)`); lines with fewer than 2 parts are
skipped; username and password are the trimmed first two parts, the
host file the trimmed third when present; a record is appended only
when both the username and the password are nonempty. -/

/-- Split a character list at the first occurrence of `sep`:
`some (before, after)` or `none` when `sep` does not occur. -/
def splitFirst (sep : Char) : List Char → Option (List Char × List Char)
  | [] => none
  | c :: rest =>
    if c = sep then some ([], rest)
    else
      match splitFirst sep rest with
      | none => none
      | some (pre, post) => some (c :: pre, post)

/-- Embedding of `strings.SplitN(s, sep, n)` for a single-character
separator: at most `n` substrings, the last one holding the unsplit
remainder.  (Go returns `nil` for `n = 0`; we only call it at `n = 3`.) -/
def splitN (sep : Char) (n : Nat) (cs : List Char) : List (List Char) :=
  match n with
  | 0 => []
  | 1 => [cs]
  | m + 2 =>
    match splitFirst sep cs with
    | none => [cs]
    | some (pre, post) => pre :: splitN sep (m + 1) post

/-- One line of `users.cnf`, as `LoadAuthConfig` processes it:
`none` when the line is skipped, `some user` when a record is kept. -/
def parseUserLine (line : String) : Option User :=
  let l := goTrim line
  if l = "" ∨ startsWithChar l '#' then none
  else
    let parts := (splitN '/' 3 l.data).map (fun cs => String.mk cs)
    if parts.length < 2 then none
    else
      let username := goTrim ((parts.get? 0).getD "")
      let password := goTrim ((parts.get? 1).getD "")
      let hostFile := if parts.length ≥ 3 then goTrim ((parts.get? 2).getD "") else ""
      if username ≠ "" ∧ password ≠ "" then
        some { Username := username, Password := password, HostFile := hostFile }
      else none

/-- The ordered user records `LoadAuthConfig` builds from the lines of
`users.cnf`. -/
def loadAuthUsers (lines : List String) : List User :=
  lines.filterMap parseUserLine

/-- Embedding of `LoadAuthConfig`: parse the lines; fail when no valid
user was found, otherwise install the list. -/
def LoadAuthConfig (lines : List String) : Except String (List User) :=
  let users := loadAuthUsers lines
  if users.isEmpty then Except.error "no valid users found" else Except.ok users

/-! ### `HandleAuth`

The screen interaction is modelled by the finite list of form
submissions the client sends: each is either the PF9 logoff key or an
Enter with the username and password field values (the go3270 NonBlank
validator applies before the values reach `HandleAuth`).  The Go loop
runs until PF9 (an error return), a screen error, or a successful
authentication; an exhausted input list models the connection ending
while still in the loop. -/

structure authSession where
  authenticated : Bool
  username : String
  hostFile : String
  deriving Repr, DecidableEq

inductive AuthInput where
  | pf9
  | enter (username password : String)
  deriving Repr, DecidableEq

inductive AuthFailure where
  | logoffPF9
  | screenError
  deriving Repr, DecidableEq

/-- Embedding of `HandleAuth`: loop over submissions; PF9 returns the
logoff error; Enter looks the pair up with `authenticateUser` and on
success returns the session with `authenticated = true`, the submitted
username and the stored host file; on failure the loop continues with
an inline error message (not modelled). -/
def HandleAuth (users : List User) : List AuthInput → Except AuthFailure authSession
  | [] => Except.error AuthFailure.screenError
  | AuthInput.pf9 :: _ => Except.error AuthFailure.logoffPF9
  | AuthInput.enter username password :: rest =>
    match authenticateUser users username password with
    | (true, hostFile) =>
      Except.ok { authenticated := true, username := username, hostFile := hostFile }
    | (false, _) => HandleAuth users rest

/-! ## Host-selection menu (`handleProxyConnection`)

After `HandleScreen` returns the `selection` field, the Go code runs:

  if selection == "99" or strings.ToUpper(selection) == "X": return (close)
  num, err := strconv.Atoi(selection)
  if err != nil or num < 1 or num > len(config.Hosts): continue (redisplay)
  connectToHost(conn, config.Hosts[num-1])

We embed this dispatch as a pure function of the selection string and the
catalog size. -/

/-- Embedding of `strconv.Atoi`: an optional single leading sign followed
by at least one decimal digit, nothing else.  Go additionally errors on
64-bit overflow; here the numeral keeps its value, which the menu treats
as out of catalog range exactly as Go treats the range error, so the menu
outcome is unchanged. -/
def goAtoi (s : String) : Option Int :=
  let core : List Char → Int → Option Int := fun t sign =>
    if t = [] then none
    else if t.all (fun c => c.isDigit) then
      some (sign * (t.foldl (fun acc c => acc * 10 + (c.toNat - 48)) 0 : Nat))
    else none
  match s.data with
  | '-' :: rest => core rest (-1)
  | '+' :: rest => core rest 1
  | cs => core cs 1

inductive MenuAction where
  | disconnect
  | select (n : Nat)
  | redisplay
  deriving Repr, DecidableEq

/-- Embedding of the selection dispatch in `handleProxyConnection`:
disconnect tokens first, then `Atoi` and the range check; a selected
host index is 1-based. -/
def menuStep (selection : String) (catalogSize : Nat) : MenuAction :=
  if selection = "99" ∨ goToUpper selection = "X" then MenuAction.disconnect
  else
    match goAtoi selection with
    | none => MenuAction.redisplay
    | some num =>
      if num < 1 ∨ (catalogSize : Int) < num then MenuAction.redisplay
      else MenuAction.select num.toNat

/-! ## Relay engine (`connectToHost`)

The Go function is sequential apart from the two transfer goroutines.
We model the I/O outcomes it branches on as a `RelayEnv` of booleans and
record the steps it performs as an event trace in program order:
un-negotiate (warn and continue on failure), dial (on failure:
re-negotiate, return the connect error), start the two transfer tasks,
block on the error channel, cancel, close the target connection,
`wg.Wait()`, reset/settle the client connection, up to three
re-negotiation attempts, and return `nil`. -/

structure RelayEnv where
  /-- outcome of `go3270.UnNegotiateTelnet` on the client connection -/
  unnegOk : Bool
  /-- outcome of `dialer.Dial` to the backend host -/
  dialOk : Bool
  /-- whether the first error received from `errChan` is `io.EOF` -/
  finalErrIsEOF : Bool
  /-- outcome of re-negotiation attempt 1 -/
  reneg1 : Bool
  /-- outcome of re-negotiation attempt 2 -/
  reneg2 : Bool
  /-- outcome of re-negotiation attempt 3 -/
  reneg3 : Bool
  deriving Repr, DecidableEq

inductive ConnectResult where
  | ok
  | connectFailed
  deriving Repr, DecidableEq

inductive REvent where
  | unnegotiate
  | warnUnnegFailed
  | dialAttempt
  | renegotiateForError
  | returnConnectFailed
  | startTransferTasks
  | firstErrorReceived
  | cancelSignal
  | closeTarget
  | waitBothTasks
  | setLinger
  | settleSleep
  | renegAttempt (attempt : Nat) (ok : Bool)
  | logAllRenegFailed
  | logRelayError
  | returnOk
  deriving Repr, DecidableEq

/-- The events of the bounded re-negotiation loop (`for attempts := 0;
attempts < 3`), stopping at the first success, logging when all fail. -/
def renegEvents (r1 r2 r3 : Bool) : List REvent :=
  if r1 then [REvent.renegAttempt 1 true]
  else if r2 then [REvent.renegAttempt 1 false, REvent.renegAttempt 2 true]
  else if r3 then
    [REvent.renegAttempt 1 false, REvent.renegAttempt 2 false, REvent.renegAttempt 3 true]
  else
    [REvent.renegAttempt 1 false, REvent.renegAttempt 2 false, REvent.renegAttempt 3 false,
      REvent.logAllRenegFailed]

/-- Embedding of `connectToHost(clientConn, host)`: the returned Go
error (`nil` mapped to `ok`) together with the trace of steps taken. -/
def connectToHost (env : RelayEnv) : ConnectResult × List REvent :=
  let pre : List REvent :=
    [REvent.unnegotiate] ++ (if env.unnegOk then [] else [REvent.warnUnnegFailed])
      ++ [REvent.dialAttempt]
  if env.dialOk then
    (ConnectResult.ok,
      pre
        ++ [REvent.startTransferTasks, REvent.firstErrorReceived, REvent.cancelSignal,
          REvent.closeTarget, REvent.waitBothTasks, REvent.setLinger, REvent.settleSleep]
        ++ renegEvents env.reneg1 env.reneg2 env.reneg3
        ++ (if env.finalErrIsEOF then [] else [REvent.logRelayError])
        ++ [REvent.returnOk])
  else
    (ConnectResult.connectFailed,
      pre ++ [REvent.renegotiateForError, REvent.returnConnectFailed])

/-- `occursBefore tr a b`: `a` occurs in `tr` and `b` occurs strictly
after the first occurrence of `a`. -/
def occursBefore (tr : List REvent) (a b : REvent) : Bool :=
  ((tr.dropWhile (fun e => e ≠ a)).drop 1).contains b

def isRenegAttempt : REvent → Bool
  | REvent.renegAttempt _ _ => true
  | _ => false

/-! ### Transfer goroutines

Both forwarding goroutines in `connectToHost` have the same body: a
loop that observes the cancellation context, retries on a read
deadline expiry, and on any genuine read or write error sends the
error on `errChan` and calls `cancel()` before returning. -/

inductive TransferObs where
  /-- `ctx.Done()` is closed (the shared cancellation signal) -/
  | ctxDone
  /-- `Read` returned a `net.Error` that is a timeout -/
  | readTimeout
  /-- `Read` returned a genuine error (including a peer close) -/
  | readError
  /-- `Read` returned `n` bytes; the flag is the outcome of the `Write` -/
  | readData (writeOk : Bool)
  deriving Repr, DecidableEq

inductive TransferAction where
  /-- return without reporting (cancellation observed) -/
  | stop
  /-- continue the loop -/
  | keepLooping
  /-- send the error on `errChan`, call `cancel()`, return -/
  | reportAndCancel
  deriving Repr, DecidableEq

/-- One iteration of a transfer goroutine body. -/
def transferStep : TransferObs → TransferAction
  | TransferObs.ctxDone => TransferAction.stop
  | TransferObs.readTimeout => TransferAction.keepLooping
  | TransferObs.readError => TransferAction.reportAndCancel
  | TransferObs.readData writeOk =>
    if writeOk then TransferAction.keepLooping else TransferAction.reportAndCancel

/-! ## Listener supervisors (`startStandardServer`, `startTLSServer`)

Both supervisors run the same unconditional `for` loop: record the
start time, run one accept cycle, and choose the pause before the next
iteration from the outcome — an error after more than five minutes of
running restarts immediately, an error within five minutes waits 30
seconds, a clean return waits 10 seconds. -/

inductive CycleResult where
  /-- the accept cycle returned an error after running `elapsedSeconds` -/
  | failed (elapsedSeconds : Nat)
  /-- the accept cycle returned without an error -/
  | finished
  deriving Repr, DecidableEq

/-- The pause, in seconds, the supervisor loop body inserts before the
next iteration (`time.Since(startTime) > 5*time.Minute`). -/
def supervisorDelay : CycleResult → Nat
  | CycleResult.failed elapsedSeconds => if 300 < elapsedSeconds then 0 else 30
  | CycleResult.finished => 10

/-- The pauses of the first `n` iterations of the supervisor loop,
given the outcome of each accept cycle; the loop itself has no exit. -/
def superviseDelays (cycles : Nat → CycleResult) : Nat → List Nat
  | 0 => []
  | n + 1 => superviseDelays cycles n ++ [supervisorDelay (cycles n)]

/-! ### The encrypted endpoint (`startTLSServer` / `runTLSServer`)

`startTLSServer` checks the TLS port and then that the certificate and
key files exist (`os.Stat`), returning before the restart loop when a
check fails.  `tls.LoadX509KeyPair` is *not* part of that pre-check: it
is the first statement of `runTLSServer`, executed inside the loop on
every iteration.  The trace below records the checks, loop entry and
the first `n` loop iterations (the loop itself never exits). -/

structure TLSEnv where
  tlsPort : Nat
  /-- `os.Stat(config.TLSCert)` finds the certificate file -/
  certExists : Bool
  /-- `os.Stat(config.TLSKey)` finds the key file -/
  keyExists : Bool
  /-- `tls.LoadX509KeyPair` succeeds on the configured files -/
  keyPairLoadable : Bool
  deriving Repr, DecidableEq

inductive TLSEvent where
  | checkPort
  | checkCertFile
  | checkKeyFile
  | refuseStart
  | enterLoop
  | loadKeyPair (ok : Bool)
  | acceptCycle
  deriving Repr, DecidableEq

/-- One iteration of the TLS restart loop: `runTLSServer` first loads
the key pair; on failure it returns that error to the supervisor,
otherwise it proceeds to listen and accept. -/
def tlsCycleEvents (env : TLSEnv) : List TLSEvent :=
  [TLSEvent.loadKeyPair env.keyPairLoadable]
    ++ (if env.keyPairLoadable then [TLSEvent.acceptCycle] else [])

def tlsLoopEvents (env : TLSEnv) : Nat → List TLSEvent
  | 0 => []
  | n + 1 => tlsCycleEvents env ++ tlsLoopEvents env n

/-- Embedding of `startTLSServer`: the pre-loop checks in code order
with their early returns, then `n` observed iterations of the restart
loop. -/
def startTLSServerTrace (env : TLSEnv) (n : Nat) : List TLSEvent :=
  if env.tlsPort = 0 then [TLSEvent.checkPort, TLSEvent.refuseStart]
  else if env.certExists = false then
    [TLSEvent.checkPort, TLSEvent.checkCertFile, TLSEvent.refuseStart]
  else if env.keyExists = false then
    [TLSEvent.checkPort, TLSEvent.checkCertFile, TLSEvent.checkKeyFile, TLSEvent.refuseStart]
  else
    [TLSEvent.checkPort, TLSEvent.checkCertFile, TLSEvent.checkKeyFile, TLSEvent.enterLoop]
      ++ tlsLoopEvents env n

/-! ## Theorems -/

/-- Claim C1: for every loaded credential store and every
(username, password) pair, `authenticateUser` returns `(true, hostFile)`
where `hostFile` is the host-catalog reference of the first record in
file order whose username and password both match exactly; with no such
record it returns `(false, "")`. -/
theorem authenticateUser_first_match (users : List User) (username password : String) :
    authenticateUser users username password =
      match users.find? (fun r => username == r.Username && password == r.Password) with
      | some r => (true, r.HostFile)
      | none => (false, "") := by
  induction users with
  | nil => rfl
  | cons user rest ih =>
    by_cases h : username = user.Username ∧ password = user.Password
    · simp [authenticateUser, List.find?_cons, h.1, h.2, if_pos h]
    · have hb : (username == user.Username && password == user.Password) = false := by
        rw [Bool.eq_false_iff]
        simp only [ne_eq, Bool.and_eq_true, beq_iff_eq]
        exact h
      simp [authenticateUser, List.find?_cons, hb, if_neg h, ih]

/-- Claim C2, counterexample: the input "X" is non-numeric, so by the
claim the menu should redisplay; the code instead closes the
connection, because the disconnect-token comparison runs first. -/
theorem menu_nonnumeric_input_can_disconnect :
    goAtoi "X" = none ∧ menuStep "X" 3 = MenuAction.disconnect := by decide

/-- Claim C2, amended: for every menu input other than the disconnect
tokens ("99", and anything uppercasing to "X") that does not denote an
integer in [1, catalogSize], the menu loop redisplays the selection
screen: no host is selected and the connection is not closed. -/
theorem menu_invalid_selection_redisplays (s : String) (n : Nat)
    (h99 : s ≠ "99") (hX : goToUpper s ≠ "X")
    (hrange : ∀ k : Int, goAtoi s = some k → k < 1 ∨ (n : Int) < k) :
    menuStep s n = MenuAction.redisplay := by
  unfold menuStep
  rw [if_neg (by exact not_or.mpr ⟨h99, hX⟩)]
  cases hA : goAtoi s with
  | none => rfl
  | some k =>
    show (if k < 1 ∨ (n : Int) < k then MenuAction.redisplay
      else MenuAction.select k.toNat) = MenuAction.redisplay
    rw [if_pos (hrange k hA)]

/-- Claim C2, witness: an oversized, a non-numeric, a zero and a
negative selection each redisplay the menu at catalog size 3. -/
theorem menu_invalid_selection_redisplays_witness :
    menuStep "7" 3 = MenuAction.redisplay ∧ menuStep "abc" 3 = MenuAction.redisplay ∧
      menuStep "0" 3 = MenuAction.redisplay ∧ menuStep "-2" 3 = MenuAction.redisplay := by
  refine ⟨?_, ?_, ?_, ?_⟩
  · exact menu_invalid_selection_redisplays "7" 3 (by decide) (by decide)
      (fun k hk => by rw [show goAtoi "7" = some 7 from rfl] at hk; cases hk; right; decide)
  · exact menu_invalid_selection_redisplays "abc" 3 (by decide) (by decide)
      (fun k hk => by rw [show goAtoi "abc" = none from rfl] at hk; cases hk)
  · exact menu_invalid_selection_redisplays "0" 3 (by decide) (by decide)
      (fun k hk => by rw [show goAtoi "0" = some 0 from rfl] at hk; cases hk; left; decide)
  · exact menu_invalid_selection_redisplays "-2" 3 (by decide) (by decide)
      (fun k hk => by rw [show goAtoi "-2" = some (-2) from rfl] at hk; cases hk; left; decide)

/-- Claim C3: each of the literal menu inputs "99", "X" and "x" closes
the connection, for every host catalog size. -/
theorem menu_disconnect_tokens_close (n : Nat) :
    menuStep "99" n = MenuAction.disconnect ∧ menuStep "X" n = MenuAction.disconnect ∧
      menuStep "x" n = MenuAction.disconnect := by
  refine ⟨?_, ?_, ?_⟩
  · unfold menuStep; rw [if_pos (Or.inl rfl)]
  · unfold menuStep; rw [if_pos (Or.inr (by decide))]
  · unfold menuStep; rw [if_pos (Or.inr (by decide))]

/-- Claim C4: `connectToHost` returns the connect-failure error exactly
when the dial to the backend fails, in which case the client protocol
is re-negotiated before the return; in every other case — any relay
outcome and any renegotiation outcome — it returns nil. -/
theorem connectToHost_tri_state (env : RelayEnv) :
    ((connectToHost env).1 = ConnectResult.connectFailed ↔ env.dialOk = false) ∧
      (env.dialOk = true → (connectToHost env).1 = ConnectResult.ok) ∧
      (env.dialOk = false →
        occursBefore (connectToHost env).2 REvent.renegotiateForError
          REvent.returnConnectFailed = true) := by
  rcases env with ⟨u, d, eof, r1, r2, r3⟩
  cases u <;> cases d <;> cases eof <;> cases r1 <;> cases r2 <;> cases r3 <;> decide

/-- Claim C5: when the pre-relay telnet un-negotiation fails,
`connectToHost` logs a warning and proceeds: it still dials the
backend, enters the relay when the dial succeeds, and does not turn
the un-negotiation failure into an error return. -/
theorem connectToHost_unneg_failure_proceeds (env : RelayEnv)
    (h : env.unnegOk = false) :
    (connectToHost env).2.contains REvent.warnUnnegFailed = true ∧
      occursBefore (connectToHost env).2 REvent.warnUnnegFailed REvent.dialAttempt = true ∧
      (env.dialOk = true →
        occursBefore (connectToHost env).2 REvent.warnUnnegFailed
          REvent.startTransferTasks = true) ∧
      (env.dialOk = true → (connectToHost env).1 = ConnectResult.ok) := by
  rcases env with ⟨u, d, eof, r1, r2, r3⟩
  cases u <;> cases d <;> cases eof <;> cases r1 <;> cases r2 <;> cases r3 <;>
    revert h <;> decide

/-- Claim C5, witness: the environment where un-negotiation fails and
everything else succeeds. -/
theorem connectToHost_unneg_failure_proceeds_witness :
    (connectToHost ⟨false, true, true, true, true, true⟩).2.contains
        REvent.warnUnnegFailed = true ∧
      occursBefore (connectToHost ⟨false, true, true, true, true, true⟩).2
        REvent.warnUnnegFailed REvent.dialAttempt = true ∧
      ((⟨false, true, true, true, true, true⟩ : RelayEnv).dialOk = true →
        occursBefore (connectToHost ⟨false, true, true, true, true, true⟩).2
          REvent.warnUnnegFailed REvent.startTransferTasks = true) ∧
      ((⟨false, true, true, true, true, true⟩ : RelayEnv).dialOk = true →
        (connectToHost ⟨false, true, true, true, true, true⟩).1 = ConnectResult.ok) :=
  connectToHost_unneg_failure_proceeds ⟨false, true, true, true, true, true⟩ rfl

/-- Claim C6: the supervisor loop never exits (the first n iterations
always happen, for every n and every sequence of cycle outcomes); a
cycle that fails after more than 5 minutes restarts with no delay, a
cycle that fails within 5 minutes restarts after 30 seconds, and a
cycle that returns cleanly restarts after 10 seconds. -/
theorem supervisor_restart_policy (cycles : Nat → CycleResult) (n e : Nat) :
    (superviseDelays cycles n).length = n ∧
      (300 < e → supervisorDelay (CycleResult.failed e) = 0) ∧
      (e ≤ 300 → supervisorDelay (CycleResult.failed e) = 30) ∧
      supervisorDelay CycleResult.finished = 10 := by
  refine ⟨?_, ?_, ?_, rfl⟩
  · induction n with
    | zero => rfl
    | succ m ih => simp [superviseDelays, ih]
  · intro hgt; simp [supervisorDelay, hgt]
  · intro hle; simp [supervisorDelay, Nat.not_lt.mpr hle]

/-- Claim C7, counterexample: with the certificate and key files
present but not loadable as a key pair, the claimed verification fails,
yet `startTLSServer` enters the restart loop and the failing load
happens inside the loop. -/
theorem tls_unloadable_cert_still_enters_loop :
    (⟨3271, true, true, false⟩ : TLSEnv).keyPairLoadable = false ∧
      TLSEvent.enterLoop ∈ startTLSServerTrace ⟨3271, true, true, false⟩ 1 ∧
      TLSEvent.loadKeyPair false ∈ startTLSServerTrace ⟨3271, true, true, false⟩ 1 := by
  decide

/-- Helper: each iteration of the TLS restart loop performs exactly one
key-pair load. -/
theorem tlsLoopEvents_load_count (env : TLSEnv) (n : Nat) :
    ((tlsLoopEvents env n).count (TLSEvent.loadKeyPair env.keyPairLoadable)) = n := by
  induction n with
  | zero => rfl
  | succ m ih =>
    cases hk : env.keyPairLoadable <;>
      simp_all [tlsLoopEvents, tlsCycleEvents, List.count_append, List.count_cons]

/-- Helper: the file-existence checks never occur inside the TLS
restart loop. -/
theorem tlsLoopEvents_no_checks (env : TLSEnv) (n : Nat) :
    TLSEvent.checkCertFile ∉ tlsLoopEvents env n ∧
      TLSEvent.checkKeyFile ∉ tlsLoopEvents env n := by
  induction n with
  | zero => exact ⟨List.not_mem_nil _, List.not_mem_nil _⟩
  | succ m ih =>
    cases hk : env.keyPairLoadable <;>
      simp_all [tlsLoopEvents, tlsCycleEvents]

/-- Claim C7, amended: before its restart loop the supervisor checks
once that the TLS port is set and that the certificate and key files
exist; exactly when a check fails the loop is never entered and the key
pair is never loaded. The certificate-file check is never repeated, and
loadability is not part of the pre-check: `tls.LoadX509KeyPair` runs
inside the loop, once per iteration. -/
theorem tls_precheck_existence_only (env : TLSEnv) (n : Nat) :
    (TLSEvent.enterLoop ∈ startTLSServerTrace env n ↔
        (env.tlsPort ≠ 0 ∧ env.certExists = true ∧ env.keyExists = true)) ∧
      ((startTLSServerTrace env n).count TLSEvent.checkCertFile ≤ 1) ∧
      ((env.certExists = false ∨ env.keyExists = false ∨ env.tlsPort = 0) →
        (∀ b : Bool, TLSEvent.loadKeyPair b ∉ startTLSServerTrace env n)) ∧
      (env.tlsPort ≠ 0 → env.certExists = true → env.keyExists = true →
        (startTLSServerTrace env n).count (TLSEvent.loadKeyPair env.keyPairLoadable) = n) := by
  by_cases hp : env.tlsPort = 0
  · cases hc : env.certExists <;> cases hk : env.keyExists <;>
      simp_all [startTLSServerTrace]
  · have hz : List.count TLSEvent.checkCertFile (tlsLoopEvents env n) = 0 :=
      List.count_eq_zero.mpr (tlsLoopEvents_no_checks env n).1
    cases hc : env.certExists <;> cases hk : env.keyExists <;>
      simp_all [startTLSServerTrace, List.count_append, List.count_cons,
        tlsLoopEvents_load_count]

/-- Claim C8: after the relay ends, the engine receives the first
reported error, signals cancellation, closes the backend connection and
waits for both transfer tasks, in that order, and every client-protocol
recovery step comes after the wait barrier; a transfer task that hits a
genuine read error reports it and cancels the other direction. -/
theorem relay_shutdown_ordering (env : RelayEnv) (h : env.dialOk = true) :
    occursBefore (connectToHost env).2 REvent.firstErrorReceived REvent.cancelSignal = true ∧
      occursBefore (connectToHost env).2 REvent.cancelSignal REvent.closeTarget = true ∧
      occursBefore (connectToHost env).2 REvent.closeTarget REvent.waitBothTasks = true ∧
      ((connectToHost env).2.takeWhile (fun e => e ≠ REvent.waitBothTasks)).all
          (fun e => !isRenegAttempt e) = true ∧
      transferStep TransferObs.readError = TransferAction.reportAndCancel := by
  rcases env with ⟨u, d, eof, r1, r2, r3⟩
  cases u <;> cases d <;> cases eof <;> cases r1 <;> cases r2 <;> cases r3 <;>
    revert h <;> decide

/-- Claim C8, witness: the ordering in the run where the relay ended
with a genuine error and every renegotiation attempt failed. -/
theorem relay_shutdown_ordering_witness :
    occursBefore (connectToHost ⟨true, true, false, false, false, false⟩).2
        REvent.firstErrorReceived REvent.cancelSignal = true ∧
      occursBefore (connectToHost ⟨true, true, false, false, false, false⟩).2
        REvent.cancelSignal REvent.closeTarget = true ∧
      occursBefore (connectToHost ⟨true, true, false, false, false, false⟩).2
        REvent.closeTarget REvent.waitBothTasks = true ∧
      ((connectToHost ⟨true, true, false, false, false, false⟩).2.takeWhile
          (fun e => e ≠ REvent.waitBothTasks)).all (fun e => !isRenegAttempt e) = true ∧
      transferStep TransferObs.readError = TransferAction.reportAndCancel :=
  relay_shutdown_ordering ⟨true, true, false, false, false, false⟩ rfl

/-- Helper: a user record kept by `parseUserLine` has a nonempty
username and a nonempty password. -/
theorem parseUserLine_nonempty (line : String) (u : User)
    (h : parseUserLine line = some u) :
    u.Username ≠ "" ∧ u.Password ≠ "" := by
  simp only [parseUserLine] at h
  split at h
  · exact absurd h (by simp)
  · split at h
    · exact absurd h (by simp)
    · split at h
      · rename_i hcond
        simp only [Option.some.injEq] at h
        subst h
        exact hcond
      · exact absurd h (by simp)

/-- Helper: every record in the loaded credential store has a nonempty
username and password. -/
theorem loadAuthUsers_nonempty (lines : List String) (u : User)
    (h : u ∈ loadAuthUsers lines) :
    u.Username ≠ "" ∧ u.Password ≠ "" := by
  unfold loadAuthUsers at h
  rcases List.mem_filterMap.mp h with ⟨line, _, hparse⟩
  exact parseUserLine_nonempty line u hparse

/-- Helper: a successful authentication matches the submitted username
against some stored record. -/
theorem authenticateUser_true_mem (users : List User) (username password hf : String)
    (h : authenticateUser users username password = (true, hf)) :
    ∃ r ∈ users, r.Username = username := by
  induction users with
  | nil => exact absurd h (by simp [authenticateUser])
  | cons user rest ih =>
    unfold authenticateUser at h
    split at h
    · rename_i hcond
      exact ⟨user, List.mem_cons_self _ _, hcond.1.symm⟩
    · rcases ih h with ⟨r, hr, hu⟩
      exact ⟨r, List.mem_cons_of_mem _ hr, hu⟩

/-- Claim C9: a session produced by `HandleAuth` over a store loaded by
`LoadAuthConfig` is marked authenticated only with a nonempty username:
the store never holds a record with an empty username or password, and
authentication succeeds only against a stored record. -/
theorem handleAuth_no_empty_username (lines : List String) (inputs : List AuthInput)
    (s : authSession)
    (h : HandleAuth (loadAuthUsers lines) inputs = Except.ok s) :
    s.authenticated = true ∧ s.username ≠ "" := by
  induction inputs with
  | nil => exact absurd h (by simp [HandleAuth])
  | cons input rest ih =>
    cases input with
    | pf9 => exact absurd h (by simp [HandleAuth])
    | enter username password =>
      rcases hA : authenticateUser (loadAuthUsers lines) username password with ⟨b, hf⟩
      cases b with
      | true =>
        simp only [HandleAuth, hA, Except.ok.injEq] at h
        subst h
        refine ⟨rfl, ?_⟩
        rcases authenticateUser_true_mem _ _ _ _ hA with ⟨r, hr, hu⟩
        have := (loadAuthUsers_nonempty lines r hr).1
        simpa [hu] using this
      | false =>
        simp only [HandleAuth, hA] at h
        exact ih h

/-- Claim C9, witness: the one-user store "alice/secret" and a correct
login produce an authenticated session with the nonempty username. -/
theorem handleAuth_no_empty_username_witness :
    (⟨true, "alice", ""⟩ : authSession).authenticated = true ∧
      (⟨true, "alice", ""⟩ : authSession).username ≠ "" :=
  handleAuth_no_empty_username ["alice/secret"] [AuthInput.enter "alice" "secret"]
    ⟨true, "alice", ""⟩ rfl

/-- Claim C10, counterexample: the numeral "099" parses to 99 and is
not caught by the literal disconnect comparison, so with a 99-host
catalog it selects entry 99 — the entry is reachable by number after
all. -/
theorem host99_selectable_by_leading_zero :
    goAtoi "099" = some 99 ∧ menuStep "099" 99 = MenuAction.select 99 := by decide

/-- Claim C10, amended: the disconnect comparison runs before the
integer range check, so the literal input "99" closes the connection
for every catalog size, including catalogs with at least 99 entries;
entry 99 remains selectable through a non-canonical numeral such as
"099". -/
theorem disconnect_check_shadows_99 (n : Nat) :
    menuStep "99" n = MenuAction.disconnect ∧
      (99 ≤ n → menuStep "099" n = MenuAction.select 99) := by
  constructor
  · unfold menuStep; rw [if_pos (Or.inl rfl)]
  · intro hn
    unfold menuStep
    rw [if_neg (by decide)]
    rw [show goAtoi "099" = some 99 from rfl]
    show (if (99 : Int) < 1 ∨ (n : Int) < 99 then MenuAction.redisplay
      else MenuAction.select (Int.toNat 99)) = MenuAction.select 99
    rw [if_neg ?_]
    · rfl
    · push_neg
      refine ⟨by decide, ?_⟩
      exact_mod_cast hn

end Secure3270
